import Mathlib

/-!
Shallow embedding of the VoiceMart product-finder scraping service
(`services/product-finder/app/scrapers/`): the base scraper's cache/fetch
logic and synthetic-listing generator, the Amazon/eBay/Walmart extractors
with their mock generators, and the `ScraperManager` aggregation pipeline
(field normalization, placeholder demotion).

Modelling conventions:
* Python float values are modelled exactly: finite values as reduced
  fractions of integers (`PRat`), plus explicit `inf`/`ninf`/`nan`
  constructors for the non-finite values `float()` can produce.  Binary
  floating-point rounding artifacts are not modelled.  `PRat` is used
  instead of Mathlib's `ℚ` so that every definition evaluates by kernel
  reduction; wall-clock times in the cache logic, which no theorem needs
  to evaluate on closed inputs, use `ℚ`.
* Python's process-randomized string `hash` is a parameter
  `pyh : String → ℤ`; within one process it is a fixed function.
* `random.uniform` and `random.choice` draws are supplied by explicit
  streams (`uni : ℕ → PRat`, successive uniform results in call order;
  `choiceIdx : ℕ → ℕ`, successive chosen indices).  Successive generator
  invocations in the real code advance the global Mersenne-Twister state,
  so distinct invocations read distinct stream contents.
* Network fetches and HTML parsing are modelled by their outcomes: a fetch
  attempt either raises (`none`) or yields a body; a fetched-and-parsed
  search page is `Option (List _Node)`, the result nodes the CSS selectors
  produced (`none` when the fetch or the parse failed).
* The thread-pool path of `ScraperManager.search_products` extends the
  result list in future-completion order; it merges exactly the same
  per-scraper lists as the sequential path, so the aggregation is modelled
  sequentially and the `parallel` flag is carried as an inert parameter.
  All properties proved about the merged collection are order-insensitive.
-/

/-- Exact rational with reduced representation (`den > 0`,
`gcd (num.natAbs) den = 1` for every value built by the operations below),
so that structural equality coincides with value equality. -/
structure PRat where
  num : ℤ
  den : ℕ
  deriving DecidableEq

/-- Build the reduced fraction `n / d` (for `d ≠ 0`). -/
def PRat.mk0 (n d : ℤ) : PRat :=
  let s : ℤ := if d < 0 then -n else n
  let dd : ℕ := d.natAbs
  let g : ℕ := Nat.gcd s.natAbs dd
  if g = 0 then ⟨0, 1⟩ else ⟨s / (g : ℤ), dd / g⟩

/-- Exact rational addition. -/
def PRat.add (a b : PRat) : PRat :=
  PRat.mk0 (a.num * (b.den : ℤ) + b.num * (a.den : ℤ)) ((a.den : ℤ) * (b.den : ℤ))

/-- Exact rational multiplication. -/
def PRat.mul (a b : PRat) : PRat :=
  PRat.mk0 (a.num * b.num) ((a.den : ℤ) * (b.den : ℤ))

/-- Exact rational negation. -/
def PRat.neg (a : PRat) : PRat := ⟨-a.num, a.den⟩

/-- Exact rational subtraction. -/
def PRat.sub (a b : PRat) : PRat := a.add b.neg

/-- Embed an integer. -/
def PRat.ofInt (n : ℤ) : PRat := ⟨n, 1⟩

/-- Strict order test (denominators are positive). -/
def PRat.blt (a b : PRat) : Bool := a.num * (b.den : ℤ) < b.num * (a.den : ℤ)

/-- Floor of an exact rational. -/
def PRat.floor (a : PRat) : ℤ := Int.fdiv a.num (a.den : ℤ)

/-- Multiply by an integer power of ten (for float exponents). -/
def PRat.mulPow10 (a : PRat) (z : ℤ) : PRat :=
  if 0 ≤ z then a.mul ⟨(10 : ℤ) ^ z.toNat, 1⟩ else a.mul ⟨1, (10 : ℕ) ^ (-z).toNat⟩

/-- Non-finite-aware model of a Python float value. -/
inductive PyFloat where
  | fin (q : PRat)
  | inf
  | ninf
  | nan
  deriving DecidableEq

/-- Model of a Python value that can sit in a product dict's `price` slot:
a string, a float (ints are embedded as their float value, since the
normalizer immediately maps them through `float(str(_))`), or `None`. -/
inductive PyVal where
  | pstr (s : String)
  | pfloat (x : PyFloat)
  | pnone
  deriving DecidableEq

/-- Strip leading and trailing whitespace, as `float()` does before parsing. -/
def trimWs (cs : List Char) : List Char :=
  ((cs.dropWhile (·.isWhitespace)).reverse.dropWhile (·.isWhitespace)).reverse

/-- Numeric value of a digit string. -/
def digitsVal (cs : List Char) : ℕ :=
  cs.foldl (fun a c => 10 * a + (c.toNat - 48)) 0

/-- All characters are ASCII digits. -/
def allDigits (cs : List Char) : Bool :=
  cs.all (·.isDigit)

/-- Split a character list on a separator character. -/
def splitOnCh (sep : Char) : List Char → List (List Char)
  | [] => [[]]
  | c :: rest =>
    let r := splitOnCh sep rest
    if c = sep then [] :: r
    else
      match r with
      | [] => [[c]]
      | h :: t => (c :: h) :: t

/-- Whether `needle` starts the list `hay`. -/
def startsW (hay needle : List Char) : Bool :=
  match hay, needle with
  | _, [] => true
  | [], _ :: _ => false
  | a :: as, b :: bs => a == b && startsW as bs

/-- Whether `needle` occurs contiguously inside `hay`. -/
def chHas (needle : List Char) : List Char → Bool
  | [] => needle.isEmpty
  | c :: t => startsW (c :: t) needle || chHas needle t

/-- Model of Python's `needle in hay` substring test. -/
def strHas (hay needle : String) : Bool :=
  chHas needle.data hay.data

/-- Fueled worker for `str.replace` (left-to-right, non-overlapping). -/
def replGo (pat rep : List Char) : ℕ → List Char → List Char
  | _, [] => []
  | 0, l => l
  | fuel + 1, c :: t =>
    if startsW (c :: t) pat then rep ++ replGo pat rep fuel (t.drop (pat.length - 1))
    else c :: replGo pat rep fuel t

/-- Model of Python `s.replace(pat, rep)` for non-empty `pat`. -/
def pyReplace (s pat rep : String) : String :=
  if pat.data.isEmpty then s
  else String.mk (replGo pat.data rep.data s.data.length s.data)

/-- Character-level worker for Python `str.title()`. -/
def pyTitleGo : Bool → List Char → List Char
  | _, [] => []
  | prevAlpha, c :: rest =>
    (if c.isAlpha then (if prevAlpha then c.toLower else c.toUpper) else c)
      :: pyTitleGo c.isAlpha rest

/-- Model of Python `str.title()` (cased = alphabetic). -/
def pyTitle (s : String) : String :=
  String.mk (pyTitleGo false s.data)

/-- Model of Python `str.lower()` (ASCII). -/
def pyLower (s : String) : String :=
  String.mk (s.data.map Char.toLower)

/-- Mantissa part of a Python float literal: digits with at most one dot. -/
def pyMantissa (m : List Char) : Option PRat :=
  match splitOnCh '.' m with
  | [ip] =>
    if ip ≠ [] ∧ allDigits ip then some (PRat.ofInt (digitsVal ip)) else none
  | [ip, fp] =>
    if (ip ≠ [] ∨ fp ≠ []) ∧ allDigits ip ∧ allDigits fp then
      some ((PRat.ofInt (digitsVal ip)).add (PRat.mk0 (digitsVal fp) ((10 : ℤ) ^ fp.length)))
    else none
  | _ => none

/-- Exponent part of a Python float literal (after `e`). -/
def pyExponent (e : List Char) : Option ℤ :=
  let (eneg, ecs) : Bool × List Char :=
    match e with
    | '+' :: r => (false, r)
    | '-' :: r => (true, r)
    | r => (false, r)
  if ecs ≠ [] ∧ allDigits ecs then
    some (if eneg then -(digitsVal ecs : ℤ) else (digitsVal ecs : ℤ))
  else none

/-- Model of Python's `float(s)` string conversion: optional surrounding
whitespace, optional sign, then `inf`/`infinity`/`nan` (case-insensitive)
or a decimal literal with optional fraction and exponent.  Underscore
digit grouping is not modelled.  `none` where `float()` raises. -/
def pyFloatOfString (s : String) : Option PyFloat :=
  let cs0 := trimWs s.data
  let (neg, cs1) : Bool × List Char :=
    match cs0 with
    | '+' :: r => (false, r)
    | '-' :: r => (true, r)
    | r => (false, r)
  let l := cs1.map Char.toLower
  if l = "inf".data ∨ l = "infinity".data then
    some (if neg then PyFloat.ninf else PyFloat.inf)
  else if l = "nan".data then some PyFloat.nan
  else
    match splitOnCh 'e' l with
    | [m] =>
      match pyMantissa m with
      | some q => some (PyFloat.fin (if neg then q.neg else q))
      | none => none
    | [m, e] =>
      match pyMantissa m, pyExponent e with
      | some q, some z =>
        some (PyFloat.fin (if neg then (q.mulPow10 z).neg else q.mulPow10 z))
      | _, _ => none
    | _ => none

/-- Round-half-to-even on exact rationals, the idealization of Python's
`round` (binary-float artifacts are not modelled). -/
def roundHalfEven (q : PRat) : ℤ :=
  let f := q.floor
  let r := q.sub (PRat.ofInt f)
  if r.blt ⟨1, 2⟩ then f
  else if (⟨1, 2⟩ : PRat).blt r then f + 1
  else if f % 2 = 0 then f else f + 1

/-- Model of Python `round(q, d)` on the exact value. -/
def pyRound (q : PRat) (d : ℕ) : PRat :=
  PRat.mk0 (roundHalfEven (q.mul ⟨(10 : ℤ) ^ d, 1⟩)) ((10 : ℤ) ^ d)

/-- Model of a product dict.  Absent keys are `none`; the fields are the
union of the keys any scraper or generator in the service writes. -/
structure Product where
  id : Option String := none
  title : Option String := none
  price : Option PyVal := none
  currency : Option String := none
  image : Option String := none
  image_url : Option String := none
  description : Option String := none
  brand : Option String := none
  category : Option String := none
  rating : Option PyFloat := none
  availability : Option String := none
  url : Option String := none
  source : Option String := none
  deriving DecidableEq

/-- Embedding of `BaseScraper.generate_fake_products` (base_scraper.py
194-206): `min(limit, 5)` synthetic listings whose prices are fresh
`random.uniform(10, 500)` draws (`uni i` is the draw for listing `i`)
rounded to two decimals, and whose images carry the `placehold.co`
placeholder marker. -/
def generate_fake_products (uni : ℕ → PRat) (query : String) (limit : ℕ)
    (source : String) : List Product :=
  (List.range (min limit 5)).map fun i =>
    { title := some (pyTitle source ++ " " ++ pyTitle query ++ " - Model " ++ toString (i + 1))
      price := some (PyVal.pfloat (PyFloat.fin (pyRound (uni i) 2)))
      image := some ("https://placehold.co/400x400?text=" ++ source ++ "+" ++ toString (i + 1))
      url := some ("https://www." ++ pyLower source ++ ".com/search?q=" ++ pyReplace query " " "+")
      description := some ("Sample " ++ query ++ " product from " ++ source)
      source := some (pyLower source)
      category := some query }

/-- Outcome of one fetch attempt in `BaseScraper.get_page_content`:
`none` when the attempt raised (timeout, connection error, non-2xx status
raised by `raise_for_status`, the explicit `HTTP 503` raise, or a Selenium
failure), `some body` when a body was obtained. -/
abbrev FetchAttempt := Option String

/-- Embedding of the retry loop of `get_page_content` (base_scraper.py
106-144): scan the attempt outcomes in order and return the first body
longer than 200 characters; every exception is caught, so a fully failed
scan yields `none` rather than an error. -/
def fetchTry : List FetchAttempt → Option String
  | [] => none
  | none :: rest => fetchTry rest
  | some b :: rest => if 200 < b.length then some b else fetchTry rest

/-- Result of `get_page_content`: the returned body (or `None`), whether
the network was attempted, and whether the cache file was (re)written. -/
structure PageFetch where
  content : Option String
  usedNetwork : Bool
  wroteCache : Bool
  deriving DecidableEq

/-- The fetch phase of `get_page_content`: at most `retries`
(`MAX_RETRIES`) attempts; on the first acceptable body the cache file is
written and the body returned, otherwise `None` is returned. -/
def fetch_phase (retries : ℕ) (attempts : List FetchAttempt) : PageFetch :=
  match fetchTry (attempts.take retries) with
  | some b => { content := some b, usedNetwork := true, wroteCache := true }
  | none => { content := none, usedNetwork := true, wroteCache := false }

/-- Embedding of `BaseScraper.get_page_content` (base_scraper.py 71-144).
`cacheMtime` is the cache file's modification time (`none` when no cache
file exists), `now` the current time, both in seconds; the cached body is
served iff the file exists, `force_refresh` is false, and the file age in
hours is below `cache_timeout_hours`.  Otherwise the retry loop runs.
The rare cache-file read error (caught and logged in the source, falling
through to a fetch) is not modelled: cache reads succeed. -/
def get_page_content (retries : ℕ) (cacheMtime : Option ℚ) (cachedBody : String)
    (now : ℚ) (forceRefresh : Bool) (cacheTimeoutHours : ℚ)
    (attempts : List FetchAttempt) : PageFetch :=
  match cacheMtime with
  | some t =>
    if forceRefresh = false ∧ (now - t) / 3600 < cacheTimeoutHours then
      { content := some cachedBody, usedNetwork := false, wroteCache := false }
    else fetch_phase retries attempts
  | none => fetch_phase retries attempts

/-- What the Amazon per-result selectors recovered from one result node
(amazon_scraper.py 56-110): `none` for a field when every selector for it
failed. -/
structure AmazonNode where
  asin : Option String := none
  title : Option String := none
  price : Option PRat := none
  image : Option String := none
  href : Option String := none
  rating : Option PRat := none
  deriving DecidableEq

/-- Embedding of the per-item body of `AmazonScraper.search_products`
(amazon_scraper.py 60-116): build the product dict and emit it only if it
has a title and at least one of an image or a price. -/
def amazonExtractItem (query searchUrl baseUrl : String) (n : AmazonNode) :
    Option Product :=
  let idUrl : Option String × Option String :=
    match n.asin with
    | some a => (some a, some (baseUrl ++ "/dp/" ++ a))
    | none => (none, none)
  let url : String :=
    match idUrl.2 with
    | some u => u
    | none =>
      match n.href with
      | some h => if h.startsWith "/" then baseUrl ++ h else h
      | none => searchUrl
  if n.title.isSome && (n.image.isSome || n.price.isSome) then
    some { id := idUrl.1
           title := n.title
           price := n.price.map (fun q => PyVal.pfloat (PyFloat.fin q))
           image := n.image
           rating := n.rating.map PyFloat.fin
           description := some ("Amazon product: " ++ n.title.getD "No title available")
           url := some url
           source := some "amazon"
           category := some query }
  else none

/-- Embedding of `AmazonScraper.search_products` (amazon_scraper.py
22-122).  `page` is the fetched-and-parsed search page (`none` when
`get_page_content` returned no body or the HTML did not parse, in which
case fake products are returned immediately); at most `limit` nodes are
processed, and if nothing was emitted and the query is non-empty the
synthetic fallback runs.  The module-level `ALLOW_FAKE` flag
(scraper_manager.py 7) is in scope for the service but consulted by no
code path, which is why no argument of this function carries it. -/
def amazon_search_products (uni : ℕ → PRat) (query : String) (limit : ℕ)
    (page : Option (List AmazonNode)) : List Product :=
  let baseUrl := "https://www.amazon.com"
  let searchUrl := baseUrl ++ "/s?k=" ++ pyReplace query " " "+"
  match page with
  | none => generate_fake_products uni query limit "amazon"
  | some nodes =>
    let products := (nodes.take limit).filterMap (amazonExtractItem query searchUrl baseUrl)
    if products.isEmpty ∧ query ≠ "" then generate_fake_products uni query limit "amazon"
    else products

/-- Embedding of `ALLOW_FAKE` (scraper_manager.py 7): the value of the
`ALLOW_FAKE_PRODUCTS` environment variable (default `"true"`), lowered
and tested against the accepted truthy spellings. -/
def allowFakeFlag (envVal : String) : Bool :=
  ["1", "true", "yes"].contains (pyLower envVal)

/-- What the eBay per-result selectors recovered from one result node
(ebay_scraper.py 63-102). -/
structure EbayNode where
  title : Option String := none
  price : Option PRat := none
  image : Option String := none
  href : Option String := none
  deriving DecidableEq

/-- Embedding of the per-item body of `EbayScraper.search_products`
(ebay_scraper.py 63-107): the product is emitted whenever a title was
found; price, image and URL are optional. -/
def ebayExtractItem (query : String) (n : EbayNode) : Option Product :=
  match n.title with
  | none => none
  | some t =>
    some { source := some "ebay"
           category := some query
           title := some t
           price := n.price.map (fun q => PyVal.pfloat (PyFloat.fin q))
           image := n.image
           url := n.href
           description := some t }

/-- Embedding of `EbayScraper._generate_realistic_mock_products`
(ebay_scraper.py 118-161): `limit` listings; listing `i` consumes choice
draws `3*i .. 3*i+2` (template, brand, condition) and uniform draws `2*i`
(price variation in `[0.7, 1.5]`) and `2*i+1` (rating offset); the price
is a query-hash-derived base `50 + hash(query) % 200` times the fresh
variation draw, rounded to two decimals. -/
def ebay_generate_realistic_mock_products (pyh : String → ℤ) (uni : ℕ → PRat)
    (choiceIdx : ℕ → ℕ) (query : String) (limit : ℕ) (source : String) :
    List Product :=
  let templates := ["Used " ++ pyTitle query ++ " - Good Condition",
                    "Refurbished " ++ pyTitle query ++ " - Like New",
                    "New " ++ pyTitle query ++ " - Free Shipping",
                    "Vintage " ++ pyTitle query ++ " - Collectible",
                    "Open Box " ++ pyTitle query ++ " - Excellent Condition"]
  let brands := ["Generic", "Brand Name", "Premium", "Professional", "Commercial"]
  let conditions := ["New", "Used", "Refurbished", "Open Box", "For Parts"]
  (List.range limit).map fun i =>
    let template := templates.getD (choiceIdx (3 * i) % templates.length) ""
    let brand := brands.getD (choiceIdx (3 * i + 1) % brands.length) ""
    let condition := conditions.getD (choiceIdx (3 * i + 2) % conditions.length) ""
    let basePrice : ℤ := 50 + (pyh query) % 200
    let price := pyRound ((PRat.ofInt basePrice).mul (uni (2 * i))) 2
    { id := some ("ebay_realistic_" ++ toString (i + 1) ++ "_" ++ toString ((pyh query) % 1000))
      title := some (condition ++ " " ++ brand ++ " " ++ template)
      price := some (PyVal.pfloat (PyFloat.fin price))
      currency := some "USD"
      image_url := some ("https://via.placeholder.com/300x300?text=eBay+" ++ pyReplace query " " "+")
      description := some ("eBay listing for " ++ query ++ " - " ++ condition ++ " condition")
      brand := some brand
      category := some query
      rating := some (PyFloat.fin (pyRound ((PRat.ofInt 4).add (uni (2 * i + 1))) 1))
      availability := some "in_stock"
      url := some ("https://www.ebay.com/itm/" ++ toString ((pyh (query ++ toString i)) % 1000000))
      source := some source }

/-- What the Walmart per-result selectors recovered from one candidate
node (walmart_scraper.py 121-190). -/
structure WalmartNode where
  title : Option String := none
  price : Option PRat := none
  image : Option String := none
  href : Option String := none
  deriving DecidableEq

/-- Embedding of the per-node body of `WalmartScraper.search_products`
(walmart_scraper.py 125-190): a node without a title is skipped; price
and image are optional; the URL falls back to the search URL. -/
def walmartExtractItem (query searchUrl baseUrl : String) (n : WalmartNode) :
    Option Product :=
  match n.title with
  | none => none
  | some t =>
    some { source := some "walmart"
           category := some query
           title := some t
           price := n.price.map (fun q => PyVal.pfloat (PyFloat.fin q))
           image := n.image
           url := some (match n.href with
                        | some h => if h.startsWith "http" then h else baseUrl ++ h
                        | none => searchUrl)
           description := some t }

/-- Embedding of `WalmartScraper._generate_realistic_mock_products`
(walmart_scraper.py 201-242): `limit` listings; listing `i` consumes
choice draws `2*i`, `2*i+1` (template, brand) and uniform draws `2*i`
(price variation in `[0.8, 1.3]`) and `2*i+1` (rating offset); the price
is `20 + hash(query) % 150` times the fresh variation draw. -/
def walmart_generate_realistic_mock_products (pyh : String → ℤ) (uni : ℕ → PRat)
    (choiceIdx : ℕ → ℕ) (query : String) (limit : ℕ) (source : String) :
    List Product :=
  let templates := ["Walmart " ++ pyTitle query ++ " - Great Value",
                    "Everyday Low Price " ++ pyTitle query,
                    "Walmart Brand " ++ pyTitle query,
                    "Rollback " ++ pyTitle query ++ " - Save More",
                    "Walmart Exclusive " ++ pyTitle query]
  let brands := ["Great Value", "Mainstays", "Equate", "Ozark Trail", "Time and Tru"]
  (List.range limit).map fun i =>
    let template := templates.getD (choiceIdx (2 * i) % templates.length) ""
    let brand := brands.getD (choiceIdx (2 * i + 1) % brands.length) ""
    let basePrice : ℤ := 20 + (pyh query) % 150
    let price := pyRound ((PRat.ofInt basePrice).mul (uni (2 * i))) 2
    { id := some ("walmart_realistic_" ++ toString (i + 1) ++ "_" ++ toString ((pyh query) % 1000))
      title := some (brand ++ " " ++ template)
      price := some (PyVal.pfloat (PyFloat.fin price))
      currency := some "USD"
      image_url := some ("https://via.placeholder.com/300x300?text=Walmart+" ++ pyReplace query " " "+")
      description := some ("Walmart product for " ++ query ++ " - " ++ brand ++ " brand")
      brand := some brand
      category := some query
      rating := some (PyFloat.fin (pyRound ((PRat.mk0 21 5).add (uni (2 * i + 1))) 1))
      availability := some "in_stock"
      url := some ("https://www.walmart.com/ip/" ++ toString ((pyh (query ++ toString i)) % 1000000))
      source := some source }

/-- Embedding of `WalmartScraper.search_products` (walmart_scraper.py
70-199), faithful to its actual indentation: the strategy loop only
fetches and parses, each successful iteration rebinding `soup` and
resetting `products`; the node scan after the loop uses the last
successful parse.  If no strategy produced a parse, the scan dereferences
the never-assigned local `soup` and the call raises `NameError` (modelled
as `Except.error`).  Inside the node scan, the `if products: return
products` block sits inside the loop body, so the scan returns after the
first emitted product; only when no node yields a product (or `limit = 0`
forces the immediate `break`) does control reach the mock fallback. -/
def walmart_search_products (pyh : String → ℤ) (uni : ℕ → PRat)
    (choiceIdx : ℕ → ℕ) (query : String) (limit : ℕ)
    (strategies : List (Option (List WalmartNode))) :
    Except String (List Product) :=
  let baseUrl := "https://www.walmart.com"
  let searchUrl := baseUrl ++ "/search?q=" ++ pyReplace query " " "+" ++ "&sort=best_match"
  let lastSoup : Option (List WalmartNode) :=
    strategies.foldl (fun acc s => match s with | some n => some n | none => acc) none
  match lastSoup with
  | none => Except.error "NameError: soup is not defined"
  | some nodes =>
    if limit = 0 then
      Except.ok (walmart_generate_realistic_mock_products pyh uni choiceIdx query 0 "walmart")
    else
      match nodes.findSome? (walmartExtractItem query searchUrl baseUrl) with
      | some p => Except.ok [p]
      | none =>
        Except.ok (walmart_generate_realistic_mock_products pyh uni choiceIdx query limit "walmart")

/-- Numeric price normalization (scraper_manager.py 82-87):
`float(str(price).replace("$", "").replace(",", ""))` with every
exception coerced to `0.0`.  On a float value, `str` then `float`
round-trips (float reprs contain no `$` or `,`); on a string the stripped
text is parsed; `str(None)` is `"None"`, which `float` rejects. -/
def price_to_float (v : PyVal) : PyFloat :=
  match v with
  | PyVal.pfloat x => x
  | PyVal.pstr s => (pyFloatOfString (pyReplace (pyReplace s "$" "") "," "")).getD (PyFloat.fin ⟨0, 1⟩)
  | PyVal.pnone => PyFloat.fin ⟨0, 1⟩

/-- Iteration `f = "id"` of the required-field loop of
`_normalize_product_fields` (scraper_manager.py 73-80): a missing `id`
becomes `str(hash(url))` when a URL is present and `"Unknown id"`
otherwise. -/
def fill_id (pyh : String → ℤ) (p : Product) : Product :=
  if p.id = none then
    match p.url with
    | some u => { p with id := some (toString (pyh u)) }
    | none => { p with id := some "Unknown id" }
  else p

/-- Iteration `f = "title"` of the required-field loop. -/
def fill_title (p : Product) : Product :=
  if p.title = none then { p with title := some "Unknown title" } else p

/-- Iteration `f = "price"` of the required-field loop: a missing price
becomes the float `0.0`. -/
def fill_price (p : Product) : Product :=
  if p.price = none then { p with price := some (PyVal.pfloat (PyFloat.fin ⟨0, 1⟩)) } else p

/-- Iteration `f = "source"` of the required-field loop. -/
def fill_source (p : Product) : Product :=
  if p.source = none then { p with source := some "Unknown source" } else p

/-- Iteration `f = "url"` of the required-field loop. -/
def fill_url (p : Product) : Product :=
  if p.url = none then { p with url := some "Unknown url" } else p

/-- The required-field loop of `_normalize_product_fields`
(scraper_manager.py 72-80), processing `id`, `title`, `price`, `source`,
`url` in that order. -/
def fill_required (pyh : String → ℤ) (p : Product) : Product :=
  fill_url (fill_source (fill_price (fill_title (fill_id pyh p))))

/-- Embedding of `ScraperManager._normalize_product_fields`
(scraper_manager.py 68-89): copy `image` to a missing `image_url`, fill
the required fields, then coerce the price to a float. -/
def normalize_product_fields (pyh : String → ℤ) (p : Product) : Product :=
  let p1 := if p.image.isSome ∧ p.image_url = none then { p with image_url := p.image } else p
  let p2 := fill_required pyh p1
  { p2 with price := some (PyVal.pfloat (price_to_float (p2.price.getD (PyVal.pfloat (PyFloat.fin ⟨0, 1⟩))))) }

/-- The image reference the placeholder filter inspects
(scraper_manager.py 57): `r.get("image") or r.get("image_url", "")` —
the `image` value when present and non-empty, else `image_url`, else
the empty string. -/
def imageRefOf (p : Product) : String :=
  match p.image with
  | some s => if s = "" then p.image_url.getD "" else s
  | none => p.image_url.getD ""

/-- Whether the placeholder filter would drop this listing: its image
reference contains the `placehold.co` marker. -/
def isPlaceholderB (p : Product) : Bool :=
  strHas (imageRefOf p) "placehold.co"

/-- Embedding of the placeholder demotion step (scraper_manager.py
55-59): when the merged collection is non-empty, keep only the listings
whose image reference lacks the `placehold.co` marker — unless that would
leave nothing, in which case keep everything. -/
def demote_placeholders (rs : List Product) : List Product :=
  if rs.isEmpty then rs
  else
    let nps := rs.filter fun r => !(isPlaceholderB r)
    if nps.isEmpty then rs else nps

/-- A registered scraper as the manager sees it: its source name
(class name lowered with `"scraper"` removed) and its `search_products`
entry point, whose outcome is a product list or a raised exception. -/
structure Scraper where
  name : String
  run : String → ℕ → Except String (List Product)

/-- Embedding of the `run_scraper` closure (scraper_manager.py 35-44):
normalize every returned product; any exception yields the empty list. -/
def run_scraper (pyh : String → ℤ) (query : String) (limit : ℕ) (s : Scraper) :
    List Product :=
  match s.run query limit with
  | Except.ok ps => ps.map (normalize_product_fields pyh)
  | Except.error _ => []

/-- Embedding of `ScraperManager.search_products` (scraper_manager.py
19-63).  Returns the result list together with the number of scraper
invocations performed (each invocation is where network fetches can
happen).  An empty (falsy) query returns immediately; otherwise the
source filter selects the active scrapers, their results are merged
(sequentially here; the thread-pool path merges the same lists in
completion order), placeholders are demoted, and the merged list is
returned without any truncation to `limit`. -/
def manager_search_products (pyh : String → ℤ) (scrapers : List Scraper)
    (query : String) (limit : ℕ) (sources : Option (List String))
    (_parallel : Bool) : List Product × ℕ :=
  if query = "" then ([], 0)
  else
    let active := scrapers.filter fun s =>
      match sources with
      | none => true
      | some srcs => srcs.contains s.name
    if active.isEmpty then ([], 0)
    else
      let results := active.flatMap (run_scraper pyh query limit)
      (demote_placeholders results, active.length)

/-! ## Concrete fixtures for witnesses and counterexamples -/

/-- A non-synthetic listing as an Amazon parse could produce it: real
image host, no placeholder marker anywhere. -/
def exampleRealProduct : Product :=
  { id := some "B0EXAMPLE1"
    title := some "Real Phone"
    price := some (PyVal.pfloat (PyFloat.fin ⟨199, 1⟩))
    image := some "https://images.example.com/r1.jpg"
    url := some "https://www.amazon.com/dp/B0EXAMPLE1"
    source := some "amazon"
    description := some "Amazon product: Real Phone"
    category := some "phone" }

/-- A second non-synthetic listing, from another source. -/
def exampleRealProduct2 : Product :=
  { id := some "334455"
    title := some "Real Phone Case"
    price := some (PyVal.pfloat (PyFloat.fin ⟨25, 1⟩))
    image := some "https://i5.walmartimages.com/p2.jpg"
    url := some "https://www.walmart.com/ip/334455"
    source := some "walmart"
    description := some "Real Phone Case"
    category := some "phone" }

/-- A 201-character body, just past the acceptance threshold. -/
def bigBody : String := String.mk (List.replicate 201 'a')

/-- The eBay mock listings of a concrete aggregation call that also
received a real listing. -/
def c1MockList : List Product :=
  ebay_generate_realistic_mock_products (fun _ => 0) (fun _ => ⟨1, 1⟩) (fun _ => 0)
    "phone" 1 "ebay"

/-- The output of that aggregation call: an Amazon scraper returning a
real listing and an eBay scraper returning its mock listings. -/
def c1Out : List Product :=
  (manager_search_products (fun _ => 0)
    [⟨"amazon", fun _ _ => Except.ok [exampleRealProduct]⟩,
     ⟨"ebay", fun _ _ => Except.ok c1MockList⟩]
    "phone" 5 none true).1

/-! ## Shared lemmas -/

theorem startsW_append (n h t : List Char) (hs : startsW h n = true) :
    startsW (h ++ t) n = true := by
  induction n generalizing h with
  | nil => simp [startsW]
  | cons b bs ih =>
    cases h with
    | nil => simp [startsW] at hs
    | cons a as =>
      simp only [startsW, Bool.and_eq_true] at hs ⊢
      exact ⟨hs.1, ih as hs.2⟩

theorem chHas_nil_needle (t : List Char) : chHas [] t = true := by
  induction t with
  | nil => rfl
  | cons c t ih => simp [chHas, startsW]

theorem chHas_append_right (n h t : List Char) (hh : chHas n h = true) :
    chHas n (h ++ t) = true := by
  induction h with
  | nil =>
    simp only [chHas, List.isEmpty_iff] at hh
    subst hh
    exact chHas_nil_needle _
  | cons c h' ih =>
    simp only [chHas, Bool.or_eq_true] at hh ⊢
    rcases hh with hs | hr
    · exact Or.inl (startsW_append n (c :: h') t hs)
    · exact Or.inr (ih hr)

theorem strHas_append_left (s t n : String) (h : strHas s n = true) :
    strHas (s ++ t) n = true := by
  unfold strHas at h ⊢
  rw [String.data_append]
  exact chHas_append_right _ _ _ h

theorem string_append_ne_empty_of_left (s t : String) (h : s.data ≠ []) :
    s ++ t ≠ "" := by
  intro he
  have : (s ++ t).data = [] := by rw [he]
  rw [String.data_append] at this
  exact h (List.append_eq_nil.mp this).1

theorem fetchTry_some_len (l : List FetchAttempt) (b : String)
    (h : fetchTry l = some b) : 200 < b.length := by
  induction l with
  | nil => simp [fetchTry] at h
  | cons o rest ih =>
    cases o with
    | none => exact ih (by simpa [fetchTry] using h)
    | some s =>
      by_cases hs : 200 < s.length
      · simp only [fetchTry, if_pos hs] at h
        cases h
        exact hs
      · simp only [fetchTry, if_neg hs] at h
        exact ih h

theorem fetchTry_none_iff (l : List FetchAttempt) :
    fetchTry l = none ↔ ∀ o ∈ l, ∀ s, o = some s → s.length ≤ 200 := by
  induction l with
  | nil => simp [fetchTry]
  | cons o rest ih =>
    cases o with
    | none => simpa [fetchTry] using ih
    | some s =>
      by_cases hs : 200 < s.length
      · simp only [fetchTry, if_pos hs]
        constructor
        · intro h; cases h
        · intro h
          exact absurd hs (by simpa using Nat.le_of_not_lt (by simpa [Nat.not_lt] using h (some s) (by simp) s rfl))
      · simp only [fetchTry, if_neg hs, ih]
        constructor
        · intro h o ho s' hs'
          rcases List.mem_cons.mp ho with rfl | ho'
          · cases hs'; exact Nat.le_of_not_lt hs
          · exact h o ho' s' hs'
        · intro h o ho s' hs'
          exact h o (List.mem_cons_of_mem _ ho) s' hs'

theorem fetch_phase_content (r : ℕ) (a : List FetchAttempt) :
    (fetch_phase r a).content = fetchTry (a.take r) := by
  unfold fetch_phase
  cases h : fetchTry (a.take r) <;> simp

theorem fetch_phase_usedNetwork (r : ℕ) (a : List FetchAttempt) :
    (fetch_phase r a).usedNetwork = true := by
  unfold fetch_phase
  cases h : fetchTry (a.take r) <;> simp

theorem fetch_phase_wroteCache (r : ℕ) (a : List FetchAttempt) :
    (fetch_phase r a).wroteCache = (fetchTry (a.take r)).isSome := by
  unfold fetch_phase
  cases h : fetchTry (a.take r) <;> simp

theorem demote_placeholders_length_le (rs : List Product) :
    (demote_placeholders rs).length ≤ rs.length := by
  unfold demote_placeholders
  by_cases h1 : rs.isEmpty
  · simp [h1]
  · by_cases h2 : (rs.filter fun r => !(isPlaceholderB r)).isEmpty
    · simp [h1, h2]
    · simp [h1, h2, List.length_filter_le]

theorem flatMap_length_le {α β : Type} (l : List α) (f : α → List β) (k : ℕ)
    (hf : ∀ a ∈ l, (f a).length ≤ k) : (l.flatMap f).length ≤ l.length * k := by
  induction l with
  | nil => simp
  | cons a rest ih =>
    simp only [List.flatMap_cons, List.length_append, List.length_cons, Nat.succ_mul]
    have h1 := hf a (List.mem_cons_self a rest)
    have h2 := ih (fun x hx => hf x (List.mem_cons_of_mem _ hx))
    omega

theorem get_page_content_some (retries : ℕ) (t : ℚ) (cachedBody : String)
    (now : ℚ) (force : Bool) (ttl : ℚ) (attempts : List FetchAttempt) :
    get_page_content retries (some t) cachedBody now force ttl attempts
      = if force = false ∧ (now - t) / 3600 < ttl then
          { content := some cachedBody, usedNetwork := false, wroteCache := false }
        else fetch_phase retries attempts := rfl

theorem get_page_content_none (retries : ℕ) (cachedBody : String)
    (now : ℚ) (force : Bool) (ttl : ℚ) (attempts : List FetchAttempt) :
    get_page_content retries none cachedBody now force ttl attempts
      = fetch_phase retries attempts := rfl

/-! ## Claim theorems -/

/-- C10 (confirmed): for every hash function, scraper list, limit,
sources set and parallel flag, `ScraperManager.search_products` with an
empty (falsy) query returns the empty list immediately, with zero scraper
invocations — hence no network fetch and no raised error. -/
theorem empty_query_guard (pyh : String → ℤ) (scrapers : List Scraper)
    (limit : ℕ) (sources : Option (List String)) (par : Bool) :
    manager_search_products pyh scrapers "" limit sources par = ([], 0) := by
  simp [manager_search_products]

/-- C6 (confirmed): a cache entry written at time `T` with the default
24-hour TTL is served without any network attempt at `T + 23h`; at
`T + 25h` the cache is bypassed, the retry loop runs, and the entry is
overwritten exactly when an attempt succeeds; in general a cache read is
served iff `force_refresh` is false and `(now - timestamp) / 3600` is
below the TTL. -/
theorem cache_ttl_semantics (t : ℚ) (body : String) (retries : ℕ)
    (attempts : List FetchAttempt) :
    get_page_content retries (some t) body (t + 23 * 3600) false 24 attempts
        = { content := some body, usedNetwork := false, wroteCache := false }
    ∧ (get_page_content retries (some t) body (t + 25 * 3600) false 24 attempts).usedNetwork
        = true
    ∧ (get_page_content retries (some t) body (t + 25 * 3600) false 24 attempts).wroteCache
        = (fetchTry (attempts.take retries)).isSome
    ∧ ∀ (now ttl : ℚ) (force : Bool),
        (get_page_content retries (some t) body now force ttl attempts).usedNetwork = false
          ↔ (force = false ∧ (now - t) / 3600 < ttl) := by
  have h23 : ((t + 23 * 3600 : ℚ) - t) / 3600 < 24 := by
    have h : ((t + 23 * 3600 : ℚ) - t) / 3600 = 23 := by ring
    rw [h]; norm_num
  have h25 : ¬(((t + 25 * 3600 : ℚ) - t) / 3600 < 24) := by
    have h : ((t + 25 * 3600 : ℚ) - t) / 3600 = 25 := by ring
    rw [h]; norm_num
  refine ⟨?_, ?_, ?_, ?_⟩
  · rw [get_page_content_some, if_pos ⟨rfl, h23⟩]
  · rw [get_page_content_some, if_neg (fun hc => h25 hc.2)]
    exact fetch_phase_usedNetwork retries attempts
  · rw [get_page_content_some, if_neg (fun hc => h25 hc.2)]
    exact fetch_phase_wroteCache retries attempts
  · intro now ttl force
    rw [get_page_content_some]
    by_cases hc : force = false ∧ (now - t) / 3600 < ttl
    · rw [if_pos hc]
      simpa using hc
    · rw [if_neg hc]
      simp [fetch_phase_usedNetwork, hc]

/-- C7 (confirmed): on the fetch path (no cache file), `get_page_content`
accepts a body only if its length exceeds 200 characters, and it returns
`None` exactly when none of the at-most-`retries` attempt outcomes is an
acceptable body — every raised exception having been caught, so the
caller never sees an error. -/
theorem fetcher_degradation (retries : ℕ) (now ttl : ℚ) (force : Bool)
    (body : String) (attempts : List FetchAttempt) :
    (∀ b, (get_page_content retries none body now force ttl attempts).content = some b →
        200 < b.length)
    ∧ ((get_page_content retries none body now force ttl attempts).content = none
        ↔ ∀ o ∈ attempts.take retries, ∀ s, o = some s → s.length ≤ 200) := by
  have hc : (get_page_content retries none body now force ttl attempts).content
      = fetchTry (attempts.take retries) := by
    unfold get_page_content
    exact fetch_phase_content retries attempts
  constructor
  · intro b hb
    rw [hc] at hb
    exact fetchTry_some_len _ b hb
  · rw [hc]
    exact fetchTry_none_iff _

set_option maxRecDepth 10000 in
/-- Witness for C7 at concrete inputs: a 201-character body is accepted
(and indeed exceeds the threshold), and a run whose three attempts all
raise returns `None`, which the theorem converts into the statement that
no attempt carried an acceptable body. -/
theorem fetcher_degradation_witness :
    200 < bigBody.length
    ∧ ∀ o ∈ ([none, none, none] : List FetchAttempt).take 3, ∀ s, o = some s →
        s.length ≤ 200 :=
  ⟨(fetcher_degradation 3 0 24 false "" [some bigBody]).1 bigBody (by decide),
   (fetcher_degradation 3 0 24 false "" [none, none, none]).2.mp (by decide)⟩

/-- C4 (corrected, amended form): in every synthetic-listing generator the
price sequence decomposes as shown — for the eBay and Walmart mocks the
query enters only through the hash-derived integer base (`50 + hash % 200`
resp. `20 + hash % 150`), which is then multiplied by the fresh uniform
draw `uni (2*i)`; for `generate_fake_products` the price is the fresh
uniform draw alone, independent of the query.  Hence equal queries give
equal prices exactly when the random draws coincide, and two real
invocations, which consume different positions of the global random
stream, generally differ. -/
theorem synthetic_price_decomposition (pyh : String → ℤ) (uni : ℕ → PRat)
    (choiceIdx : ℕ → ℕ) (q src : String) (limit : ℕ) :
    (ebay_generate_realistic_mock_products pyh uni choiceIdx q limit src).map Product.price
      = (List.range limit).map (fun i =>
          some (PyVal.pfloat (PyFloat.fin
            (pyRound ((PRat.ofInt (50 + pyh q % 200)).mul (uni (2 * i))) 2))))
    ∧ (walmart_generate_realistic_mock_products pyh uni choiceIdx q limit src).map Product.price
      = (List.range limit).map (fun i =>
          some (PyVal.pfloat (PyFloat.fin
            (pyRound ((PRat.ofInt (20 + pyh q % 150)).mul (uni (2 * i))) 2))))
    ∧ (generate_fake_products uni q limit src).map Product.price
      = (List.range (min limit 5)).map (fun i =>
          some (PyVal.pfloat (PyFloat.fin (pyRound (uni i) 2)))) := by
  refine ⟨?_, ?_, ?_⟩
  · simp only [ebay_generate_realistic_mock_products, List.map_map]
    rfl
  · simp only [walmart_generate_realistic_mock_products, List.map_map]
    rfl
  · simp only [generate_fake_products, List.map_map]
    rfl

/-- C4 (counterexample): two invocations of the eBay mock generator with
the same query, limit and in-process hash function, but reading different
uniform draws (as two successive real invocations do), produce different
prices — refuting that prices are determined by the query hash alone. -/
theorem synthetic_price_determinism_cex :
    (ebay_generate_realistic_mock_products (fun _ => 0) (fun _ => ⟨1, 1⟩) (fun _ => 0)
        "bluetooth speaker" 1 "ebay").map Product.price
      ≠ (ebay_generate_realistic_mock_products (fun _ => 0) (fun _ => ⟨1, 2⟩) (fun _ => 0)
        "bluetooth speaker" 1 "ebay").map Product.price
    ∧ (generate_fake_products (fun _ => ⟨100, 1⟩) "bluetooth speaker" 1 "generic").map Product.price
      ≠ (generate_fake_products (fun _ => ⟨200, 1⟩) "bluetooth speaker" 1 "generic").map Product.price := by
  constructor <;> decide

/-- C8 (corrected, amended form): the Amazon extractor emits a listing
exactly when the node has a title and at least one of an image or a
price, but the eBay and Walmart extractors emit exactly when the node has
a title — image and price are optional there. -/
theorem listing_emission_amended (q su bu : String) :
    (∀ n : AmazonNode, (amazonExtractItem q su bu n).isSome
        = (n.title.isSome && (n.image.isSome || n.price.isSome)))
    ∧ (∀ n : EbayNode, (ebayExtractItem q n).isSome = n.title.isSome)
    ∧ (∀ n : WalmartNode, (walmartExtractItem q su bu n).isSome = n.title.isSome) := by
  refine ⟨fun n => ?_, fun n => ?_, fun n => ?_⟩
  · unfold amazonExtractItem
    cases hc : (n.title.isSome && (n.image.isSome || n.price.isSome)) <;> simp [hc]
  · cases h : n.title <;> simp [ebayExtractItem, h]
  · cases h : n.title <;> simp [walmartExtractItem, h]

/-- C8 (counterexample): an eBay result node carrying a title but neither
an image nor a price is nevertheless emitted, refuting the claim that
every extractor requires a title plus one of image or price. -/
theorem listing_emission_cex :
    (ebayExtractItem "phone" { title := some "Nice Phone" }).isSome = true
    ∧ ((ebayExtractItem "phone" { title := some "Nice Phone" }).map
        (fun p => (p.image, p.price))) = some (none, none) := by
  decide

theorem fill_id_price (pyh : String → ℤ) (p : Product) :
    (fill_id pyh p).price = p.price := by
  unfold fill_id
  cases p.url <;> split_ifs <;> rfl

theorem fill_title_price (p : Product) : (fill_title p).price = p.price := by
  unfold fill_title
  split_ifs <;> rfl

theorem fill_price_price (p : Product) :
    (fill_price p).price
      = if p.price = none then some (PyVal.pfloat (PyFloat.fin ⟨0, 1⟩)) else p.price := by
  unfold fill_price
  split_ifs <;> rfl

theorem fill_source_price (p : Product) : (fill_source p).price = p.price := by
  unfold fill_source
  split_ifs <;> rfl

theorem fill_url_price (p : Product) : (fill_url p).price = p.price := by
  unfold fill_url
  split_ifs <;> rfl

theorem normalize_price_eq (pyh : String → ℤ) (p : Product) :
    (normalize_product_fields pyh p).price
      = some (PyVal.pfloat (price_to_float
          (p.price.getD (PyVal.pfloat (PyFloat.fin ⟨0, 1⟩))))) := by
  have himg : (if p.image.isSome ∧ p.image_url = none then
      { p with image_url := p.image } else p).price = p.price := by
    split_ifs <;> rfl
  show some (PyVal.pfloat (price_to_float
      ((fill_required pyh (if p.image.isSome ∧ p.image_url = none then
          { p with image_url := p.image } else p)).price.getD
        (PyVal.pfloat (PyFloat.fin ⟨0, 1⟩))))) = _
  rw [fill_required, fill_url_price, fill_source_price, fill_price_price,
    fill_title_price, fill_id_price, himg]
  cases hp : p.price
  · rfl
  · simp [hp]

/-- C2 (corrected, amended form): normalization always yields a float
price and never raises; a missing or `None` price becomes `0.0`; a price
string whose stripped form `float()` rejects becomes `0.0`; and a price
string whose stripped form parses becomes exactly the parsed value — so
the result is non-negative whenever the raw price does not denote a
negative number, but a negative-denoting string survives with its sign. -/
theorem price_normalization_amended (pyh : String → ℤ) (p : Product) :
    (∃ x : PyFloat, (normalize_product_fields pyh p).price = some (PyVal.pfloat x))
    ∧ (p.price = none ∨ p.price = some PyVal.pnone →
        (normalize_product_fields pyh p).price = some (PyVal.pfloat (PyFloat.fin ⟨0, 1⟩)))
    ∧ (∀ s, p.price = some (PyVal.pstr s) →
        pyFloatOfString (pyReplace (pyReplace s "$" "") "," "") = none →
        (normalize_product_fields pyh p).price = some (PyVal.pfloat (PyFloat.fin ⟨0, 1⟩)))
    ∧ (∀ s x, p.price = some (PyVal.pstr s) →
        pyFloatOfString (pyReplace (pyReplace s "$" "") "," "") = some x →
        (normalize_product_fields pyh p).price = some (PyVal.pfloat x)) := by
  refine ⟨⟨_, normalize_price_eq pyh p⟩, ?_, ?_, ?_⟩
  · intro h
    rcases h with h | h <;> rw [normalize_price_eq, h] <;> rfl
  · intro s hs hn
    rw [normalize_price_eq, hs]
    simp [price_to_float, hn]
  · intro s x hs hx
    rw [normalize_price_eq, hs]
    simp [price_to_float, hx]

/-- Witness for C2's amended theorem at the spec's own examples: the
unparsable `"N/A"` coerces to `0.0`, and `"$1,234.56"` is stripped of the
currency symbol and thousands separator and parsed to `1234.56`. -/
theorem price_normalization_amended_witness :
    (normalize_product_fields (fun _ => 0) { price := some (PyVal.pstr "N/A") }).price
        = some (PyVal.pfloat (PyFloat.fin ⟨0, 1⟩))
    ∧ (normalize_product_fields (fun _ => 0) { price := some (PyVal.pstr "$1,234.56") }).price
        = some (PyVal.pfloat (PyFloat.fin ⟨30864, 25⟩)) :=
  ⟨(price_normalization_amended (fun _ => 0) _).2.2.1 "N/A" rfl (by decide),
   (price_normalization_amended (fun _ => 0) _).2.2.2 "$1,234.56" (PyFloat.fin ⟨30864, 25⟩)
     rfl (by decide)⟩

/-- C2 (counterexample): a raw listing whose price string denotes a
negative number is normalized to a negative float (`"-5"` becomes
`-5.0 < 0`), refuting the unconditional non-negativity of the claim. -/
theorem price_normalization_cex :
    (normalize_product_fields (fun _ => 0) { price := some (PyVal.pstr "-5") }).price
        = some (PyVal.pfloat (PyFloat.fin ⟨-5, 1⟩))
    ∧ PRat.blt ⟨-5, 1⟩ ⟨0, 1⟩ = true := by
  decide

/-- C5 (code bug, evaluated at the failing input): when every Walmart
search strategy fails to fetch (all three `get_page_content` calls return
no body), `WalmartScraper.search_products` does not fall back to
`min(limit, cap)` synthetic listings — the node scan dereferences the
never-assigned local `soup` and the call raises `NameError`, contradicting
the function's own fallback comment and the spec's never-fails contract. -/
theorem walmart_namerror_on_total_fetch_failure :
    walmart_search_products (fun _ => 0) (fun _ => ⟨1, 1⟩) (fun _ => 0) "laptop" 5
        [none, none, none]
      = Except.error "NameError: soup is not defined" := rfl

/-- C9 (code bug, evaluated at the failing input): `ALLOW_FAKE_PRODUCTS`
set to `"false"` does make the `ALLOW_FAKE` flag false, yet with every
Amazon fetch failing the search still returns five synthetic placeholder
listings — no code path consults the flag, so its value cannot make
failed extraction propagate as an empty result. -/
theorem fake_flag_unenforced :
    allowFakeFlag "false" = false
    ∧ allowFakeFlag "true" = true
    ∧ (amazon_search_products (fun _ => ⟨100, 1⟩) "headphones" 5 none).length = 5
    ∧ (amazon_search_products (fun _ => ⟨100, 1⟩) "headphones" 5 none).all isPlaceholderB
        = true := by
  decide

/-- C1 (corrected, amended form): the demotion step is exactly a filter
on the `placehold.co` marker — whenever some merged listing lacks the
marker, the result is the marker-free sublist (so no marked listing
survives), and when every listing carries the marker all are kept; and
every listing produced by `BaseScraper.generate_fake_products` carries
the marker.  (The eBay and Walmart mock listings carry
`via.placeholder.com` image references instead, which the filter does not
match — see the counterexample.) -/
theorem placeholder_demotion_amended :
    (∀ rs : List Product,
      ((rs.any fun r => !(isPlaceholderB r)) = true →
          demote_placeholders rs = rs.filter (fun r => !(isPlaceholderB r))
          ∧ ∀ r ∈ demote_placeholders rs, isPlaceholderB r = false)
      ∧ ((∀ r ∈ rs, isPlaceholderB r = true) → demote_placeholders rs = rs))
    ∧ (∀ (uni : ℕ → PRat) (q : String) (lim : ℕ) (src : String) (p : Product),
        p ∈ generate_fake_products uni q lim src → isPlaceholderB p = true) := by
  constructor
  · intro rs
    constructor
    · intro hany
      have hne : rs ≠ [] := by
        intro h
        subst h
        simp at hany
      have hflt : (rs.filter fun r => !(isPlaceholderB r)) ≠ [] := by
        rcases List.any_eq_true.mp hany with ⟨r, hr, hpr⟩
        intro hnil
        have hcon := List.filter_eq_nil_iff.mp hnil r hr
        simp [hpr] at hcon
      have hdem : demote_placeholders rs = rs.filter (fun r => !(isPlaceholderB r)) := by
        unfold demote_placeholders
        rw [if_neg (by simpa [List.isEmpty_iff] using hne)]
        dsimp only
        rw [if_neg (by simpa [List.isEmpty_iff] using hflt)]
      refine ⟨hdem, ?_⟩
      intro r hr
      rw [hdem] at hr
      have hm := List.mem_filter.mp hr
      simpa using hm.2
    · intro hall
      have hnil : (rs.filter fun r => !(isPlaceholderB r)) = [] := by
        apply List.filter_eq_nil_iff.mpr
        intro a ha
        simp [hall a ha]
      unfold demote_placeholders
      by_cases he : rs.isEmpty
      · rw [if_pos he]
      · rw [if_neg he]
        dsimp only
        simp [hnil]
  · intro uni q lim src p hp
    rcases List.mem_map.mp hp with ⟨i, _, rfl⟩
    have hs : ("https://placehold.co/400x400?text=" ++ src ++ "+" ++ toString (i + 1)) ≠ "" := by
      apply string_append_ne_empty_of_left
      simp [String.data_append]
    have h1 : strHas "https://placehold.co/400x400?text=" "placehold.co" = true := by decide
    have h2 := strHas_append_left _ src _ h1
    have h3 := strHas_append_left _ "+" _ h2
    have h4 := strHas_append_left _ (toString (i + 1)) _ h3
    simp only [isPlaceholderB, imageRefOf, generate_fake_products]
    rw [if_neg hs]
    exact h4

/-- Witness for C1's amended theorem at a concrete mixed collection: one
real listing plus one `generate_fake_products` listing; the demotion
equals the marker-free filter. -/
theorem placeholder_demotion_amended_witness :
    demote_placeholders
        (exampleRealProduct :: generate_fake_products (fun _ => ⟨1, 1⟩) "phone" 1 "generic")
      = (exampleRealProduct :: generate_fake_products (fun _ => ⟨1, 1⟩) "phone" 1 "generic").filter
          (fun r => !(isPlaceholderB r)) :=
  ((placeholder_demotion_amended.1 _).1 (by decide)).1

/-- C1 (counterexample): an aggregation call whose merged collection
mixes a real listing with eBay mock-generator listings returns every one
of the synthetic eBay listings alongside the real one — their
`via.placeholder.com` image references do not contain the `placehold.co`
marker, so the demotion keeps them, refuting "the output never contains a
synthetic listing (including those produced by the eBay and Walmart mock
generators) once a real listing exists". -/
theorem placeholder_demotion_cex :
    c1MockList ≠ []
    ∧ c1MockList.all (fun p => c1Out.contains p) = true
    ∧ c1Out.contains (normalize_product_fields (fun _ => 0) exampleRealProduct) = true
    ∧ isPlaceholderB (normalize_product_fields (fun _ => 0) exampleRealProduct) = false := by
  decide

/-- C3 (corrected, amended form): `ScraperManager.search_products`
performs no truncation of its own, but when every registered scraper
honours the per-scraper bound (returns at most `limit` listings on
success), the merged, demoted result is bounded by `limit` times the
number of registered scrapers. -/
theorem result_bounding_amended (pyh : String → ℤ) (scrapers : List Scraper)
    (query : String) (limit : ℕ) (sources : Option (List String)) (par : Bool)
    (h : ∀ s ∈ scrapers, ∀ ps, s.run query limit = Except.ok ps → ps.length ≤ limit) :
    ((manager_search_products pyh scrapers query limit sources par).1).length
      ≤ scrapers.length * limit := by
  unfold manager_search_products
  by_cases hq : query = ""
  · simp [hq]
  · rw [if_neg hq]
    dsimp only
    by_cases hact : (scrapers.filter fun s =>
        match sources with
        | none => true
        | some srcs => srcs.contains s.name).isEmpty
    · rw [if_pos hact]
      simp
    · rw [if_neg hact]
      dsimp only
      refine le_trans (demote_placeholders_length_le _) ?_
      refine le_trans (flatMap_length_le _ _ limit ?_) ?_
      · intro s hs
        unfold run_scraper
        cases hr : s.run query limit with
        | ok ps => simpa using h s (List.mem_of_mem_filter hs) ps hr
        | error e => simp
      · exact Nat.mul_le_mul_right limit (List.length_filter_le _ _)

/-- Witness for C3's amended theorem: a single scraper returning a single
listing under `limit = 1` yields at most `1 * 1` results. -/
theorem result_bounding_amended_witness :
    ((manager_search_products (fun _ => 0)
        [⟨"amazon", fun _ _ => Except.ok [exampleRealProduct]⟩] "phone" 1 none true).1).length
      ≤ 1 * 1 := by
  have hb : ∀ s ∈ [(⟨"amazon", fun _ _ => Except.ok [exampleRealProduct]⟩ : Scraper)],
      ∀ ps, s.run "phone" 1 = Except.ok ps → ps.length ≤ 1 := by
    intro s hs ps hps
    rcases List.mem_singleton.mp hs with rfl
    injection hps with h2
    rw [← h2]
    decide
  simpa using result_bounding_amended (fun _ => 0)
    [⟨"amazon", fun _ _ => Except.ok [exampleRealProduct]⟩] "phone" 1 none true hb

/-- C3 (counterexample): with two scrapers each contributing one listing
and `limit = 1`, the returned sequence has two elements — the manager
never truncates to the caller's `limit`. -/
theorem result_bounding_cex :
    ((manager_search_products (fun _ => 0)
        [⟨"amazon", fun _ _ => Except.ok [exampleRealProduct]⟩,
         ⟨"ebay", fun _ _ => Except.ok [exampleRealProduct2]⟩] "phone" 1 none true).1).length = 2
    ∧ ¬(((manager_search_products (fun _ => 0)
        [⟨"amazon", fun _ _ => Except.ok [exampleRealProduct]⟩,
         ⟨"ebay", fun _ _ => Except.ok [exampleRealProduct2]⟩] "phone" 1 none true).1).length ≤ 1) := by
  decide
